import Mathlib

/-!
Verification development for the tool module `ex_app/lib/tools.py` of the
`context_agent` app.  The Python functions are shallowly embedded as Lean
functions: remote HTTP responses become explicit JSON-value arguments, the
polling loop of `ask_context_chat` becomes a fuel-based recursion that also
records an observable trace of sleep/poll events, and exceptions become
`Except` error values.
-/

namespace ContextAgent

/-- JSON values, as produced by `res.json()` / passed to pydantic validation. -/
inductive JsonVal where
  | null : JsonVal
  | bool : Bool → JsonVal
  | num : Int → JsonVal
  | str : String → JsonVal
  | arr : List JsonVal → JsonVal
  | obj : List (String × JsonVal) → JsonVal

/-- Python truthiness (`bool(v)`) for JSON values: `None`, `False`, `0`, `""`,
`[]` and `\x7b\x7d` are falsy. -/
def pyTruthy : JsonVal → Bool
  | .null => false
  | .bool b => b
  | .num n => n != 0
  | .str s => s != ""
  | .arr xs => !xs.isEmpty
  | .obj fs => !fs.isEmpty

/-- Errors a Python subscript / membership expression can raise. -/
inductive PyLookupError where
  | keyError (key : String) : PyLookupError
  | typeError : PyLookupError
  | indexError : PyLookupError

/-- Python membership test `key in v` for a string `key`: dict key membership,
list element membership, substring test on strings; `TypeError` otherwise. -/
def pyIn (key : String) : JsonVal → Except PyLookupError Bool
  | .obj fs => .ok (fs.lookup key).isSome
  | .arr xs => .ok (xs.any fun x => match x with | .str s => s == key | _ => false)
  | .str s => .ok (decide ((s.splitOn key).length > 1))
  | _ => .error .typeError

/-- Python subscript `v[key]` with a string key: dict lookup raising
`KeyError` when absent; `TypeError` on lists/strings/other values. -/
def pyIndexStr (v : JsonVal) (key : String) : Except PyLookupError JsonVal :=
  match v with
  | .obj fs =>
    match fs.lookup key with
    | some x => .ok x
    | none => .error (.keyError key)
  | _ => .error .typeError

/-- Python subscript `v[i]` with an integer index: list/string indexing with
`IndexError` out of range, `KeyError` on dicts (whose keys here are strings),
`TypeError` otherwise. -/
def pyIndexNat (v : JsonVal) (i : Nat) : Except PyLookupError JsonVal :=
  match v with
  | .arr xs =>
    match xs.get? i with
    | some x => .ok x
    | none => .error .indexError
  | .str s =>
    match s.toList.get? i with
    | some c => .ok (.str c.toString)
    | none => .error .indexError
  | .obj _ => .error (.keyError (toString i))
  | _ => .error .typeError

/-! ### The task-processing client of `ask_context_chat` (tools.py lines 159-208) -/

/-- pydantic model `Task` (tools.py lines 159-162): `id: int`, `status: str`,
`output: dict[str, typing.Any] | None = None`. -/
structure Task where
  id : Int
  status : String
  output : Option (List (String × JsonVal))

/-- pydantic model `Response` (tools.py lines 164-165): `task: Task`. -/
structure Response where
  task : Task

/-- `Task.model_validate` on a JSON value: requires an object with an integer
`id`, a string `status`, and an optional `output` that is a dict or `null`;
anything else is a `ValidationError`, modelled as `none`. -/
def parseTask : JsonVal → Option Task
  | .obj fs =>
    match fs.lookup "id", fs.lookup "status" with
    | some (.num i), some (.str s) =>
      match fs.lookup "output" with
      | none => some ⟨i, s, none⟩
      | some .null => some ⟨i, s, none⟩
      | some (.obj o) => some ⟨i, s, some o⟩
      | some _ => none
    | _, _ => none
  | _ => none

/-- `Response.model_validate(response)` (tools.py lines 188 and 197): an object
with a `task` field that validates as a `Task`. -/
def parseResponse : JsonVal → Option Response
  | .obj fs =>
    match fs.lookup "task" with
    | some tv => (parseTask tv).map Response.mk
    | none => none
  | _ => none

/-- The error taxonomy of `ask_context_chat`: the three `Exception`s raised at
tools.py lines 200, 203 and 206. -/
inductive ChatError where
  | malformedResponse : ChatError
  | taskFailed : ChatError
  | malformedOutput : ChatError

/-- Observable events of one run: `time.sleep(5)` and the `GET` status fetch
for the k-th poll (0-based). -/
inductive Ev where
  | sleep (units : Nat) : Ev
  | poll (idx : Nat) : Ev

def Ev.isPoll : Ev → Bool
  | .poll _ => true
  | _ => false

/-- Number of poll (status-fetch) events in a trace. -/
def numPolls (tr : List Ev) : Nat := (tr.filter Ev.isPoll).length

/-- Terminal-status test, the negation of the `while` guard's status part
(tools.py line 193): `status == "STATUS_SUCCESSFUL" or status == "STATUS_FAILED"`. -/
def isTerminal (s : String) : Bool :=
  s == "STATUS_SUCCESSFUL" || s == "STATUS_FAILED"

/-- The `while` loop of tools.py lines 191-198.  `env k` is the remote JSON
response to the k-th poll; `i` is both the loop counter and the next poll
index; `fuel` is the remaining iteration budget (the guard `i < 60 * 6` at the
top-level instantiation `fuel = 360, i = 0`).  Each iteration sleeps 5 time
units, fetches, then re-validates; a `ValidationError` aborts the run with
`malformedResponse` (the `except` at lines 199-200).  The result is the trace
of events together with the final task or the error. -/
def pollLoopTr (env : Nat → JsonVal) : Nat → Task → Nat → List Ev × Except ChatError Task
  | 0, task, _ => ([], .ok task)
  | fuel + 1, task, i =>
    if isTerminal task.status then ([], .ok task)
    else
      match parseResponse (env i) with
      | none => ([.sleep 5, .poll i], .error .malformedResponse)
      | some r =>
        (.sleep 5 :: .poll i :: (pollLoopTr env fuel r.task (i + 1)).1,
         (pollLoopTr env fuel r.task (i + 1)).2)

/-- tools.py lines 202-208: after the loop, a non-successful status raises the
"Task failed" exception, a missing output dict or missing `"output"` key
raises the "output key not found" exception, and otherwise
`task.output["output"]` is returned. -/
def extractResult (task : Task) : Except ChatError JsonVal :=
  if task.status = "STATUS_SUCCESSFUL" then
    match task.output with
    | none => .error .malformedOutput
    | some out =>
      match out.lookup "output" with
      | none => .error .malformedOutput
      | some v => .ok v
  else .error .taskFailed

/-- `ask_context_chat` (tools.py lines 167-208), with the remote service made
explicit: `submitResp` is the JSON response of the `POST .../schedule` call and
`pollResp k` the response of the k-th `GET .../task/{id}` call.  Returns the
event trace of the polling loop together with the returned value or the raised
error. -/
def ask_context_chat (submitResp : JsonVal) (pollResp : Nat → JsonVal) :
    List Ev × Except ChatError JsonVal :=
  match parseResponse submitResp with
  | none => ([], .error .malformedResponse)
  | some r =>
    ((pollLoopTr pollResp 360 r.task 0).1,
     (pollLoopTr pollResp 360 r.task 0).2.bind extractResult)

/-- The shape every loop trace has: for each poll `k = start, start+1, ...` a
sleep of exactly 5 units immediately followed by the poll. -/
def pollBlocks (start : Nat) : Nat → List Ev
  | 0 => []
  | n + 1 => .sleep 5 :: .poll start :: pollBlocks (start + 1) n

/-! ### `schedule_event` (tools.py lines 29-83) -/

structure Date where
  year : Nat
  month : Nat
  day : Nat
deriving DecidableEq

structure Time where
  hour : Nat
  minute : Nat
deriving DecidableEq

/-- A naive `datetime` (no timezone attached yet). -/
structure DateTime where
  date : Date
  time : Time
deriving DecidableEq

/-- A bare date parsed by `datetime.strptime(s, "%Y-%m-%d")` becomes a
datetime at midnight. -/
def midnight (d : Date) : DateTime := ⟨d, ⟨0, 0⟩⟩

def isLeapYear (y : Nat) : Bool :=
  y % 4 == 0 && (y % 100 != 0 || y % 400 == 0)

def daysInMonth (y m : Nat) : Nat :=
  if m = 2 then (if isLeapYear y then 29 else 28)
  else if m = 4 ∨ m = 6 ∨ m = 9 ∨ m = 11 then 30
  else 31

/-- Split a character list at every occurrence of `sep` (the field separator
step of `strptime`). -/
def splitOnChar (sep : Char) : List Char → List (List Char)
  | [] => [[]]
  | c :: rest =>
    if c = sep then [] :: splitOnChar sep rest
    else
      match splitOnChar sep rest with
      | [] => [[c]]
      | g :: gs => (c :: g) :: gs

/-- Read a non-empty all-digit field as a decimal number. -/
def digitsToNat (cs : List Char) : Option Nat :=
  if cs.isEmpty then none
  else
    cs.foldl
      (fun acc c =>
        match acc with
        | none => none
        | some n => if c.isDigit then some (n * 10 + (c.toNat - 48)) else none)
      (some 0)

/-- `datetime.strptime(s, "%Y-%m-%d")` (tools.py lines 46-47): three dash
separated decimal fields (at most 4, 2 and 2 digits) forming a valid calendar
date, else `ValueError`. -/
def parseDate (s : String) : Option Date :=
  match splitOnChar (Char.ofNat 45) s.toList with
  | [ys, ms, ds] =>
    if ys.length ≤ 4 ∧ ms.length ≤ 2 ∧ ds.length ≤ 2 then
      match digitsToNat ys, digitsToNat ms, digitsToNat ds with
      | some y, some m, some d =>
        if 1 ≤ y ∧ y ≤ 9999 ∧ 1 ≤ m ∧ m ≤ 12 ∧ 1 ≤ d ∧ d ≤ daysInMonth y m then
          some ⟨y, m, d⟩
        else none
      | _, _, _ => none
    else none
  | _ => none

/-- `datetime.strptime(s, "%I:%M %p").time()` (tools.py lines 51-52): a
12-hour clock time such as `3:00 PM`, converted to a 24-hour time. -/
def parseTime12 (s : String) : Option Time :=
  match splitOnChar (Char.ofNat 32) s.toList with
  | [hm, ap] =>
    match splitOnChar (Char.ofNat 58) hm with
    | [hs, ms] =>
      if hs.length ≤ 2 ∧ ms.length ≤ 2 then
        match digitsToNat hs, digitsToNat ms with
        | some h, some m =>
          if 1 ≤ h ∧ h ≤ 12 ∧ m ≤ 59 then
            if ap = [Char.ofNat 65, Char.ofNat 77] then some ⟨h % 12, m⟩
            else if ap = [Char.ofNat 80, Char.ofNat 77] then some ⟨h % 12 + 12, m⟩
            else none
          else none
        | _, _ => none
      else none
    | _ => none
  | _ => none

/-- Python truthiness of an optional string parameter: `None` and `""` are
falsy (the `if start_time and end_time:` guard at tools.py line 50). -/
def truthyOpt : Option String → Bool
  | none => false
  | some s => s != ""

/-- A CalDAV calendar as seen through `principal.calendars()`: only its name
matters to this module. -/
structure CalendarObj where
  name : String
deriving DecidableEq

/-- The errors `schedule_event` can raise: `ValueError` from either
`strptime`, `pytz.UnknownTimeZoneError`-style failures from
`pytz.timezone`, and `KeyError` from the name-indexed dict lookup. -/
inductive SchedulingError where
  | dateFormatError : SchedulingError
  | timeFormatError : SchedulingError
  | timezoneError : SchedulingError
  | keyError (name : String) : SchedulingError
deriving DecidableEq

/-- `pytz.timezone(tz)` (tools.py line 61) against a timezone database given
as the list of known zone names: passing `None` raises, as does an unknown
name. -/
def pytzTimezone (db : List String) : Option String → Except SchedulingError String
  | none => .error .timezoneError
  | some z => if db.contains z then .ok z else .error .timezoneError

/-- The event handed to `calendar.add_event` (tools.py lines 67-81), with its
localized begin/end instants. -/
structure ScheduledEvent where
  title : String
  description : String
  location : Option String
  tz : String
  startDT : DateTime
  endDT : DateTime
deriving DecidableEq

/-- The Python dict comprehension lookup
`\x7bkey x: x for x in xs\x7d[name]` (tools.py lines 80, 108, 122): later
entries override earlier ones, so the lookup resolves to the LAST element
whose key equals `name`, and raises `KeyError` when there is none. -/
def lastWithKey {α : Type} (key : α → String) (xs : List α) (name : String) : Option α :=
  match xs with
  | [] => none
  | x :: rest =>
    match lastWithKey key rest name with
    | some y => some y
    | none => if key x == name then some x else none

/-- Environment of `schedule_event`: the calendars the principal has and the
names the timezone database knows. -/
structure ScheduleEnv where
  calendars : List CalendarObj
  timezones : List String

/-- `schedule_event` (tools.py lines 29-83).  A `.ok (cal, ev)` result models
the single side effect `calendar.add_event(str(c))` on calendar `cal` with
event `ev`; any `.error` means the exception was raised before that call, so
no event was created. -/
def schedule_event (env : ScheduleEnv) (calendar_name title description : String)
    (start_date end_date : String) (start_time end_time location timezone : Option String) :
    Except SchedulingError (CalendarObj × ScheduledEvent) :=
  match parseDate start_date with
  | none => .error .dateFormatError
  | some sd =>
  match parseDate end_date with
  | none => .error .dateFormatError
  | some ed =>
  (if truthyOpt start_time && truthyOpt end_time then
    match parseTime12 (start_time.getD ""), parseTime12 (end_time.getD "") with
    | some st, some et => Except.ok (DateTime.mk sd st, DateTime.mk ed et)
    | _, _ => Except.error SchedulingError.timeFormatError
  else Except.ok (midnight sd, midnight ed)).bind fun dts =>
  (pytzTimezone env.timezones timezone).bind fun tz =>
  let ev : ScheduledEvent := ⟨title, description, location, tz, dts.1, dts.2⟩
  match lastWithKey CalendarObj.name env.calendars calendar_name with
  | none => .error (.keyError calendar_name)
  | some cal => .ok (cal, ev)

/-! ### Talk tools (tools.py lines 99-123) -/

/-- A Talk conversation: a display name plus an opaque token distinguishing
conversations that share a display name. -/
structure Conversation where
  display_name : String
  token : String
deriving DecidableEq

/-- A Talk message as consumed by `list_messages_in_conversation`. -/
structure TalkMessage where
  timestamp : Nat
  actor_display_name : String
  message : String

inductive TalkError where
  | keyError (name : String) : TalkError
deriving DecidableEq

/-- Environment of the Talk tools: the user's conversations and the messages
`nc.talk.receive_messages(conv, False, n)` returns for each conversation. -/
structure TalkEnv where
  conversations : List Conversation
  receive : Conversation → Nat → List TalkMessage

/-- `send_message_to_conversation` (tools.py lines 99-111).  A `.ok (conv, m)`
result models the side effect `nc.talk.send_message(m, conv)`; an `.error`
means the dict lookup raised `KeyError` first and nothing was sent. -/
def send_message_to_conversation (env : TalkEnv) (conversation_name message : String) :
    Except TalkError (Conversation × String) :=
  match lastWithKey Conversation.display_name env.conversations conversation_name with
  | none => .error (.keyError conversation_name)
  | some conv => .ok (conv, message)

/-- `list_messages_in_conversation` (tools.py lines 113-123): resolve the
conversation by display name, then format each received message as
`"<timestamp> <actor>: <message>"`. -/
def list_messages_in_conversation (env : TalkEnv) (conversation_name : String)
    (n_messages : Nat) : Except TalkError (List String) :=
  match lastWithKey Conversation.display_name env.conversations conversation_name with
  | none => .error (.keyError conversation_name)
  | some conv =>
    .ok ((env.receive conv n_messages).map fun m =>
      toString m.timestamp ++ " " ++ m.actor_display_name ++ ": " ++ m.message)

/-! ### `get_current_weather_for_coordinates` (tools.py lines 141-156) -/

/-- The failures of the weather tool: the descriptive
`Exception('Could not retrieve weather for coordinates')` at line 155, or an
unguarded Python lookup error from the subscript chain at line 156. -/
inductive WeatherError where
  | descriptive : WeatherError
  | py (e : PyLookupError) : WeatherError

/-- `get_current_weather_for_coordinates` (tools.py lines 141-156), as a
function of the decoded JSON response.  The guard at line 154 is
`not 'properties' in json or not 'timeseries' in json['properties'] or not
json['properties']['timeseries']`, evaluated left to right with
short-circuiting; if it passes, line 156 returns
`json['properties']['timeseries'][0]['data']['instant']['details']`, where
each subscript can raise on its own. -/
def get_current_weather_for_coordinates (json : JsonVal) : Except WeatherError JsonVal :=
  match pyIn "properties" json with
  | .error e => .error (.py e)
  | .ok false => .error .descriptive
  | .ok true =>
    match pyIndexStr json "properties" with
    | .error e => .error (.py e)
    | .ok props =>
      match pyIn "timeseries" props with
      | .error e => .error (.py e)
      | .ok false => .error .descriptive
      | .ok true =>
        match pyIndexStr props "timeseries" with
        | .error e => .error (.py e)
        | .ok ts =>
          if pyTruthy ts = false then .error .descriptive
          else
            match pyIndexNat ts 0 with
            | .error e => .error (.py e)
            | .ok entry =>
              match pyIndexStr entry "data" with
              | .error e => .error (.py e)
              | .ok data =>
                match pyIndexStr data "instant" with
                | .error e => .error (.py e)
                | .ok inst =>
                  match pyIndexStr inst "details" with
                  | .error e => .error (.py e)
                  | .ok details => .ok details

/-! ### Structural lemmas about the polling loop -/

theorem pollLoopTr_terminal (env : Nat → JsonVal) (fuel : Nat) (task : Task) (i : Nat)
    (h : isTerminal task.status = true) :
    pollLoopTr env fuel task i = ([], .ok task) := by
  cases fuel with
  | zero => rfl
  | succ fuel => simp [pollLoopTr, h]

theorem pollLoopTr_first_poll (env : Nat → JsonVal) (fuel : Nat) (task : Task) (i : Nat)
    (hterm : isTerminal task.status = false) (hfuel : 0 < fuel) :
    Ev.poll i ∈ (pollLoopTr env fuel task i).1 := by
  cases fuel with
  | zero => omega
  | succ fuel =>
    cases hp : parseResponse (env i) with
    | none => simp [pollLoopTr, hterm, hp]
    | some r => simp [pollLoopTr, hterm, hp]

theorem pollLoopTr_trace (env : Nat → JsonVal) :
    ∀ (fuel : Nat) (task : Task) (i : Nat),
      ∃ n, n ≤ fuel ∧ (pollLoopTr env fuel task i).1 = pollBlocks i n := by
  intro fuel
  induction fuel with
  | zero => intro task i; exact ⟨0, Nat.le_refl 0, rfl⟩
  | succ fuel ih =>
    intro task i
    cases hterm : isTerminal task.status with
    | true => exact ⟨0, Nat.zero_le _, by simp [pollLoopTr, hterm, pollBlocks]⟩
    | false =>
      cases hp : parseResponse (env i) with
      | none => exact ⟨1, by omega, by simp [pollLoopTr, hterm, hp, pollBlocks]⟩
      | some r =>
        obtain ⟨n, hn, htr⟩ := ih r.task (i + 1)
        exact ⟨n + 1, by omega, by simp [pollLoopTr, hterm, hp, pollBlocks, htr]⟩

theorem numPolls_nil : numPolls [] = 0 := rfl

theorem numPolls_cons_block (i : Nat) (l : List Ev) :
    numPolls (.sleep 5 :: .poll i :: l) = numPolls l + 1 := by
  simp [numPolls, Ev.isPoll, List.filter]

theorem numPolls_pollBlocks : ∀ (n i : Nat), numPolls (pollBlocks i n) = n := by
  intro n
  induction n with
  | zero => intro i; rfl
  | succ n ih =>
    intro i
    rw [pollBlocks, numPolls_cons_block, ih (i + 1)]

theorem poll_mem_pollBlocks : ∀ (n i k : Nat),
    Ev.poll k ∈ pollBlocks i n ↔ i ≤ k ∧ k < i + n := by
  intro n
  induction n with
  | zero => intro i k; simp [pollBlocks]
  | succ n ih =>
    intro i k
    simp [pollBlocks, ih (i + 1)]
    omega

theorem pollLoopTr_poll_ge (env : Nat → JsonVal) (fuel : Nat) (task : Task) (i k : Nat)
    (hmem : Ev.poll k ∈ (pollLoopTr env fuel task i).1) : i ≤ k := by
  obtain ⟨n, _, htr⟩ := pollLoopTr_trace env fuel task i
  rw [htr] at hmem
  exact ((poll_mem_pollBlocks n i k).1 hmem).1

theorem pollLoopTr_stop (env : Nat → JsonVal) :
    ∀ (fuel : Nat) (task : Task) (i k : Nat),
      i ≤ k →
      Ev.poll (k + 1) ∈ (pollLoopTr env fuel task i).1 →
      ∃ r, parseResponse (env k) = some r ∧ isTerminal r.task.status = false := by
  intro fuel
  induction fuel with
  | zero => intro task i k _ hmem; simp [pollLoopTr] at hmem
  | succ fuel ih =>
    intro task i k hik hmem
    cases hterm : isTerminal task.status with
    | true =>
      rw [pollLoopTr_terminal env _ task i hterm] at hmem
      simp at hmem
    | false =>
      cases hp : parseResponse (env i) with
      | none =>
        simp [pollLoopTr, hterm, hp] at hmem
        omega
      | some r =>
        simp [pollLoopTr, hterm, hp] at hmem
        rcases hmem with h | hmem
        · omega
        · rcases Nat.eq_or_lt_of_le hik with rfl | hlt
          · refine ⟨r, hp, ?_⟩
            cases hterm2 : isTerminal r.task.status with
            | false => rfl
            | true =>
              rw [pollLoopTr_terminal env fuel r.task (i + 1) hterm2] at hmem
              simp at hmem
          · exact ih r.task (i + 1) k hlt hmem

theorem pollLoopTr_continue (env : Nat → JsonVal) :
    ∀ (fuel : Nat) (task : Task) (i k : Nat) (r : Response),
      Ev.poll k ∈ (pollLoopTr env fuel task i).1 →
      k + 1 < i + fuel →
      parseResponse (env k) = some r →
      isTerminal r.task.status = false →
      Ev.poll (k + 1) ∈ (pollLoopTr env fuel task i).1 := by
  intro fuel
  induction fuel with
  | zero => intro task i k r hmem _ _ _; simp [pollLoopTr] at hmem
  | succ fuel ih =>
    intro task i k r hmem hlt hp hterm2
    cases hterm : isTerminal task.status with
    | true =>
      rw [pollLoopTr_terminal env _ task i hterm] at hmem
      simp at hmem
    | false =>
      cases hpi : parseResponse (env i) with
      | none =>
        simp [pollLoopTr, hterm, hpi] at hmem
        rw [hmem] at hp
        rw [hp] at hpi
        cases hpi
      | some r' =>
        simp [pollLoopTr, hterm, hpi] at hmem ⊢
        rcases hmem with h | hmem
        · subst h
          rw [hp] at hpi
          injection hpi with h2
          subst h2
          exact Or.inr (pollLoopTr_first_poll env fuel r.task (k + 1) hterm2 (by omega))
        · exact Or.inr (ih r'.task (i + 1) k r hmem (by omega) hp hterm2)

theorem pollLoopTr_parse_fail (env : Nat → JsonVal) :
    ∀ (fuel : Nat) (task : Task) (i k : Nat),
      parseResponse (env k) = none →
      Ev.poll k ∈ (pollLoopTr env fuel task i).1 →
      (pollLoopTr env fuel task i).2 = .error .malformedResponse ∧
      numPolls (pollLoopTr env fuel task i).1 = k + 1 - i := by
  intro fuel
  induction fuel with
  | zero => intro task i k _ hmem; simp [pollLoopTr] at hmem
  | succ fuel ih =>
    intro task i k hp hmem
    cases hterm : isTerminal task.status with
    | true =>
      rw [pollLoopTr_terminal env _ task i hterm] at hmem
      simp at hmem
    | false =>
      cases hpi : parseResponse (env i) with
      | none =>
        simp [pollLoopTr, hterm, hpi] at hmem
        subst hmem
        constructor
        · simp [pollLoopTr, hterm, hpi]
        · simp [pollLoopTr, hterm, hpi, numPolls, Ev.isPoll, List.filter]
      | some r =>
        have hki : k ≠ i := by
          intro h
          rw [h] at hp
          rw [hp] at hpi
          cases hpi
        simp [pollLoopTr, hterm, hpi] at hmem
        rcases hmem with h | hmem
        · exact absurd h hki
        · have hge := pollLoopTr_poll_ge env fuel r.task (i + 1) k hmem
          obtain ⟨h2, hcount⟩ := ih r.task (i + 1) k hp hmem
          constructor
          · simp only [pollLoopTr, hterm, hpi]
            exact h2
          · simp [pollLoopTr, hterm, hpi, numPolls_cons_block]
            omega

/-! ### Claims about `ask_context_chat` -/

/-- Claim C1: in every run of `ask_context_chat` the polling loop issues at
most 360 poll calls; the trace is exactly a sleep of 5 time units immediately
before each poll; a terminal submission status means no poll happens at all; a
poll `k+1` happens only if poll `k` fetched a non-terminal status (so polling
stops immediately at `STATUS_SUCCESSFUL` or `STATUS_FAILED`); and any other
fetched status keeps the loop polling while the 360 cap is not reached. -/
theorem C1_poll_loop_bounded (s : JsonVal) (p : Nat → JsonVal) :
    numPolls (ask_context_chat s p).1 ≤ 360 ∧
    (ask_context_chat s p).1 = pollBlocks 0 (numPolls (ask_context_chat s p).1) ∧
    (∀ r, parseResponse s = some r → isTerminal r.task.status = true →
      numPolls (ask_context_chat s p).1 = 0) ∧
    (∀ k, Ev.poll (k + 1) ∈ (ask_context_chat s p).1 →
      ∃ r, parseResponse (p k) = some r ∧ isTerminal r.task.status = false) ∧
    (∀ k r, Ev.poll k ∈ (ask_context_chat s p).1 → k + 1 < 360 →
      parseResponse (p k) = some r → isTerminal r.task.status = false →
      Ev.poll (k + 1) ∈ (ask_context_chat s p).1) := by
  cases hs : parseResponse s with
  | none => simp [ask_context_chat, hs, numPolls, pollBlocks]
  | some r =>
    have htr : (ask_context_chat s p).1 = (pollLoopTr p 360 r.task 0).1 := by
      simp [ask_context_chat, hs]
    obtain ⟨n, hn, hblocks⟩ := pollLoopTr_trace p 360 r.task 0
    refine ⟨?_, ?_, ?_, ?_, ?_⟩
    · rw [htr, hblocks, numPolls_pollBlocks]; exact hn
    · rw [htr, hblocks, numPolls_pollBlocks]
    · intro r' hr' hterm
      injection hr' with h2
      subst h2
      rw [htr, pollLoopTr_terminal p 360 r.task 0 hterm]
      rfl
    · intro k hmem
      rw [htr] at hmem
      exact pollLoopTr_stop p 360 r.task 0 k (Nat.zero_le k) hmem
    · intro k r' hmem hcap hp2 hterm2
      rw [htr] at hmem ⊢
      exact pollLoopTr_continue p 360 r.task 0 k r' hmem (by omega) hp2 hterm2

/-- Claim C1 witness: the poll bound instantiated on a concrete run. -/
theorem C1_witness :
    numPolls (ask_context_chat JsonVal.null (fun _ => JsonVal.null)).1 ≤ 360 :=
  (C1_poll_loop_bounded JsonVal.null (fun _ => JsonVal.null)).1

/-- Claim C2: when the final task of the polling loop has status
`STATUS_SUCCESSFUL` and its output dict contains the key `"output"`,
`ask_context_chat` returns `task.output["output"]` unchanged. -/
theorem C2_returns_output_unchanged (s : JsonVal) (p : Nat → JsonVal)
    (r : Response) (task : Task) (out : List (String × JsonVal)) (v : JsonVal)
    (hs : parseResponse s = some r)
    (hrun : (pollLoopTr p 360 r.task 0).2 = .ok task)
    (hst : task.status = "STATUS_SUCCESSFUL")
    (hout : task.output = some out)
    (hkey : out.lookup "output" = some v) :
    (ask_context_chat s p).2 = .ok v := by
  simp [ask_context_chat, hs, hrun, Except.bind, extractResult, hst, hout, hkey]

def okSubmit : JsonVal :=
  .obj [("task", .obj [("id", .num 1), ("status", .str "STATUS_SUCCESSFUL"),
    ("output", .obj [("output", .str "hi")])])]

/-- Claim C2 witness: a run whose submission response is already successful
with output `\x7b"output": "hi"\x7d` returns `"hi"`. -/
theorem C2_witness :
    parseResponse okSubmit =
      some ⟨⟨1, "STATUS_SUCCESSFUL", some [("output", JsonVal.str "hi")]⟩⟩ ∧
    (ask_context_chat okSubmit (fun _ => JsonVal.null)).2 = .ok (JsonVal.str "hi") :=
  ⟨rfl, C2_returns_output_unchanged okSubmit (fun _ => JsonVal.null)
    ⟨⟨1, "STATUS_SUCCESSFUL", some [("output", JsonVal.str "hi")]⟩⟩
    ⟨1, "STATUS_SUCCESSFUL", some [("output", JsonVal.str "hi")]⟩
    [("output", JsonVal.str "hi")] (JsonVal.str "hi") rfl rfl rfl rfl rfl⟩

/-- Claim C3: whenever the polling loop ends with a task whose status is not
`STATUS_SUCCESSFUL` — an explicit `STATUS_FAILED` as well as cap exhaustion
with a non-terminal status — `ask_context_chat` raises the same single
`taskFailed` error, so the two causes are indistinguishable to the caller. -/
theorem C3_taskfailed_on_non_success (s : JsonVal) (p : Nat → JsonVal)
    (r : Response) (task : Task)
    (hs : parseResponse s = some r)
    (hrun : (pollLoopTr p 360 r.task 0).2 = .ok task)
    (hst : task.status ≠ "STATUS_SUCCESSFUL") :
    (ask_context_chat s p).2 = .error .taskFailed := by
  simp [ask_context_chat, hs, hrun, Except.bind, extractResult, hst]

def failedSubmit : JsonVal :=
  .obj [("task", .obj [("id", .num 2), ("status", .str "STATUS_FAILED")])]

/-- Claim C3 witness: a task that reports `STATUS_FAILED` produces the
`taskFailed` error. -/
theorem C3_witness :
    ("STATUS_FAILED" : String) ≠ "STATUS_SUCCESSFUL" ∧
    (ask_context_chat failedSubmit (fun _ => JsonVal.null)).2 = .error .taskFailed :=
  ⟨by decide, C3_taskfailed_on_non_success failedSubmit (fun _ => JsonVal.null)
    ⟨⟨2, "STATUS_FAILED", none⟩⟩ ⟨2, "STATUS_FAILED", none⟩ rfl rfl (by decide)⟩

/-- Claim C4: when the final task has status `STATUS_SUCCESSFUL` but its
output is missing (`None`) or is a dict lacking the key `"output"`,
`ask_context_chat` raises `malformedOutput` instead of returning.  (An output
that is neither a dict nor `None` never reaches this check: pydantic
validation already rejects it as a `malformedResponse`, see `parseTask`.) -/
theorem C4_malformed_output (s : JsonVal) (p : Nat → JsonVal)
    (r : Response) (task : Task)
    (hs : parseResponse s = some r)
    (hrun : (pollLoopTr p 360 r.task 0).2 = .ok task)
    (hst : task.status = "STATUS_SUCCESSFUL")
    (hout : task.output = none ∨
      ∃ out, task.output = some out ∧ out.lookup "output" = none) :
    (ask_context_chat s p).2 = .error .malformedOutput := by
  rcases hout with h | ⟨out, h, hkey⟩
  · simp [ask_context_chat, hs, hrun, Except.bind, extractResult, hst, h]
  · simp [ask_context_chat, hs, hrun, Except.bind, extractResult, hst, h, hkey]

def noOutputSubmit : JsonVal :=
  .obj [("task", .obj [("id", .num 3), ("status", .str "STATUS_SUCCESSFUL")])]

/-- Claim C4 witness: a successful task with no output dict raises
`malformedOutput`. -/
theorem C4_witness :
    (⟨3, "STATUS_SUCCESSFUL", none⟩ : Task).output = none ∧
    (ask_context_chat noOutputSubmit (fun _ => JsonVal.null)).2 =
      .error .malformedOutput :=
  ⟨rfl, C4_malformed_output noOutputSubmit (fun _ => JsonVal.null)
    ⟨⟨3, "STATUS_SUCCESSFUL", none⟩⟩ ⟨3, "STATUS_SUCCESSFUL", none⟩
    rfl rfl rfl (Or.inl rfl)⟩

/-- Claim C5: a response that fails pydantic validation aborts the whole
operation at once with `malformedResponse`: at submission nothing is polled at
all, at poll `k` the run stops with exactly `k+1` polls issued, and a later
poll `k+1` can only happen when the response of poll `k` validated
successfully — validation failures are never retried. -/
theorem C5_parse_failures_abort (s : JsonVal) (p : Nat → JsonVal) :
    (parseResponse s = none →
      ask_context_chat s p = ([], .error .malformedResponse)) ∧
    (∀ k, parseResponse (p k) = none → Ev.poll k ∈ (ask_context_chat s p).1 →
      (ask_context_chat s p).2 = .error .malformedResponse ∧
      numPolls (ask_context_chat s p).1 = k + 1) ∧
    (∀ k, Ev.poll (k + 1) ∈ (ask_context_chat s p).1 →
      parseResponse (p k) ≠ none) := by
  refine ⟨?_, ?_, ?_⟩
  · intro hs
    simp [ask_context_chat, hs]
  · intro k hpk hmem
    cases hs : parseResponse s with
    | none => simp [ask_context_chat, hs] at hmem
    | some r =>
      have htr : (ask_context_chat s p).1 = (pollLoopTr p 360 r.task 0).1 := by
        simp [ask_context_chat, hs]
      rw [htr] at hmem
      obtain ⟨h2, hcount⟩ := pollLoopTr_parse_fail p 360 r.task 0 k hpk hmem
      constructor
      · simp [ask_context_chat, hs, h2, Except.bind]
      · rw [htr]
        omega
  · intro k hmem hpk
    cases hs : parseResponse s with
    | none => simp [ask_context_chat, hs] at hmem
    | some r =>
      have htr : (ask_context_chat s p).1 = (pollLoopTr p 360 r.task 0).1 := by
        simp [ask_context_chat, hs]
      rw [htr] at hmem
      obtain ⟨r', hr', _⟩ := pollLoopTr_stop p 360 r.task 0 k (Nat.zero_le k) hmem
      rw [hpk] at hr'
      cases hr'

/-- Claim C5 witness: an unparseable submission response aborts immediately
with no polls. -/
theorem C5_witness :
    parseResponse JsonVal.null = none ∧
    ask_context_chat JsonVal.null (fun _ => JsonVal.null) =
      ([], .error .malformedResponse) :=
  ⟨rfl, (C5_parse_failures_abort JsonVal.null (fun _ => JsonVal.null)).1 rfl⟩

def pendingResp : JsonVal :=
  .obj [("task", .obj [("id", .num 7), ("status", .str "PENDING")])]

def successResp : JsonVal :=
  .obj [("task", .obj [("id", .num 7), ("status", .str "STATUS_SUCCESSFUL"),
    ("output", .obj [("output", .obj [("answer", .str "42")])])])]

def scenarioPoll (k : Nat) : JsonVal := if k < 2 then pendingResp else successResp

/-- Claim C6: with fetched statuses `PENDING, PENDING, STATUS_SUCCESSFUL` and
output `\x7b"output": \x7b"answer": "42"\x7d\x7d`, the tool performs exactly 3
polls and returns `\x7b"answer": "42"\x7d`. -/
theorem C6_scenario_three_polls :
    numPolls (ask_context_chat pendingResp scenarioPoll).1 = 3 ∧
    (ask_context_chat pendingResp scenarioPoll).2 =
      .ok (.obj [("answer", .str "42")]) :=
  ⟨rfl, rfl⟩

/-! ### Lemmas about the dict-comprehension lookup -/

theorem lastWithKey_eq_none_iff {α : Type} (key : α → String) (name : String) :
    ∀ xs : List α, lastWithKey key xs name = none ↔ name ∉ xs.map key := by
  intro xs
  induction xs with
  | nil => simp [lastWithKey]
  | cons x l ih =>
    simp only [lastWithKey, List.map_cons, List.mem_cons]
    cases hrec : lastWithKey key l name with
    | some y =>
      have hmem : name ∈ l.map key := by
        by_contra hn
        rw [ih.mpr hn] at hrec
        cases hrec
      simp [hmem]
    | none =>
      have hnot : name ∉ l.map key := ih.mp hrec
      cases hkx : key x == name with
      | true =>
        have : key x = name := by simpa using hkx
        simp [hkx, this]
      | false =>
        have hne : key x ≠ name := by simpa using hkx
        simp [hkx, hnot, Ne.symm hne]

theorem lastWithKey_key {α : Type} (key : α → String) (name : String) :
    ∀ (xs : List α) (c : α), lastWithKey key xs name = some c →
      key c = name ∧ c ∈ xs := by
  intro xs
  induction xs with
  | nil => intro c h; cases h
  | cons x l ih =>
    intro c h
    simp only [lastWithKey] at h
    cases hrec : lastWithKey key l name with
    | some y =>
      rw [hrec] at h
      injection h with h2
      subst h2
      obtain ⟨h3, h4⟩ := ih y hrec
      exact ⟨h3, List.mem_cons_of_mem x h4⟩
    | none =>
      rw [hrec] at h
      cases hkx : key x == name with
      | false => simp [hkx] at h
      | true =>
        simp [hkx] at h
        subst h
        exact ⟨by simpa using hkx, List.mem_cons_self x l⟩

theorem lastWithKey_of_mem {α : Type} (key : α → String) (xs : List α) (name : String)
    (h : name ∈ xs.map key) :
    ∃ c, lastWithKey key xs name = some c ∧ key c = name := by
  cases hl : lastWithKey key xs name with
  | none => exact absurd h ((lastWithKey_eq_none_iff key name xs).mp hl)
  | some c => exact ⟨c, rfl, (lastWithKey_key key name xs c hl).1⟩

theorem pytzTimezone_no_time_error (db : List String) (tz : Option String) :
    pytzTimezone db tz ≠ .error .timeFormatError := by
  cases tz with
  | none => simp [pytzTimezone]
  | some z =>
    simp only [pytzTimezone]
    split <;> simp

/-- A successful `schedule_event` call implies the calendar name was among the
listed calendar names and resolved to a calendar carrying that name. -/
theorem schedule_event_ok_mem (env : ScheduleEnv) (cn t d sd ed : String)
    (st et loc tz : Option String) (cal : CalendarObj) (ev : ScheduledEvent)
    (h : schedule_event env cn t d sd ed st et loc tz = .ok (cal, ev)) :
    cn ∈ env.calendars.map CalendarObj.name ∧ cal.name = cn := by
  unfold schedule_event at h
  cases hsd : parseDate sd with
  | none => rw [hsd] at h; cases h
  | some a =>
  rw [hsd] at h
  cases hed : parseDate ed with
  | none => rw [hed] at h; cases h
  | some b =>
  rw [hed] at h
  cases htimed : truthyOpt st && truthyOpt et with
  | true =>
    rw [htimed] at h
    simp only [if_true] at h
    cases hst : parseTime12 (st.getD "") with
    | none => simp [hst, Except.bind] at h
    | some stv =>
    cases het : parseTime12 (et.getD "") with
    | none => simp [hst, het, Except.bind] at h
    | some etv =>
    simp only [hst, het, Except.bind] at h
    cases htz : pytzTimezone env.timezones tz with
    | error e => simp [htz] at h
    | ok z =>
    simp only [htz] at h
    cases hlk : lastWithKey CalendarObj.name env.calendars cn with
    | none => simp [hlk] at h
    | some c =>
      simp only [hlk] at h
      injection h with h2
      obtain ⟨hlname, _⟩ := lastWithKey_key CalendarObj.name cn env.calendars c hlk
      have hc : c = cal := congrArg Prod.fst h2
      constructor
      · rw [← hlname]
        exact List.mem_map_of_mem CalendarObj.name ((lastWithKey_key _ _ _ _ hlk).2)
      · rw [← hc]; exact hlname
  | false =>
    rw [htimed] at h
    simp only [Bool.false_eq_true, if_false, Except.bind] at h
    cases htz : pytzTimezone env.timezones tz with
    | error e => simp [htz] at h
    | ok z =>
    simp only [htz] at h
    cases hlk : lastWithKey CalendarObj.name env.calendars cn with
    | none => simp [hlk] at h
    | some c =>
      simp only [hlk] at h
      injection h with h2
      obtain ⟨hlname, _⟩ := lastWithKey_key CalendarObj.name cn env.calendars c hlk
      have hc : c = cal := congrArg Prod.fst h2
      constructor
      · rw [← hlname]
        exact List.mem_map_of_mem CalendarObj.name ((lastWithKey_key _ _ _ _ hlk).2)
      · rw [← hc]; exact hlname

/-- Claim C7: a calendar or conversation name that is absent from the
corresponding listing makes `schedule_event`, `send_message_to_conversation`
and `list_messages_in_conversation` fail (the lookup raises), so no event is
created and no message is sent; a present name resolves to an object carrying
exactly that name. -/
theorem C7_name_lookup :
    (∀ (env : ScheduleEnv) (cn t d sd ed : String) (st et loc tz : Option String),
      cn ∉ env.calendars.map CalendarObj.name →
      ∃ e, schedule_event env cn t d sd ed st et loc tz = .error e) ∧
    (∀ (env : TalkEnv) (name msg : String),
      name ∉ env.conversations.map Conversation.display_name →
      send_message_to_conversation env name msg = .error (.keyError name)) ∧
    (∀ (env : TalkEnv) (name : String) (n : Nat),
      name ∉ env.conversations.map Conversation.display_name →
      list_messages_in_conversation env name n = .error (.keyError name)) ∧
    (∀ (cals : List CalendarObj) (name : String),
      name ∈ cals.map CalendarObj.name →
      ∃ c, lastWithKey CalendarObj.name cals name = some c ∧ c.name = name) ∧
    (∀ (convs : List Conversation) (name : String),
      name ∈ convs.map Conversation.display_name →
      ∃ c, lastWithKey Conversation.display_name convs name = some c ∧
        c.display_name = name) := by
  refine ⟨?_, ?_, ?_, ?_, ?_⟩
  · intro env cn t d sd ed st et loc tz h
    cases hres : schedule_event env cn t d sd ed st et loc tz with
    | error e => exact ⟨e, rfl⟩
    | ok pr =>
      exact absurd
        (schedule_event_ok_mem env cn t d sd ed st et loc tz pr.1 pr.2
          (by rw [hres])).1 h
  · intro env name msg h
    have hkey := (lastWithKey_eq_none_iff Conversation.display_name name
      env.conversations).mpr h
    simp [send_message_to_conversation, hkey]
  · intro env name n h
    have hkey := (lastWithKey_eq_none_iff Conversation.display_name name
      env.conversations).mpr h
    simp [list_messages_in_conversation, hkey]
  · intro cals name h
    exact lastWithKey_of_mem CalendarObj.name cals name h
  · intro convs name h
    exact lastWithKey_of_mem Conversation.display_name convs name h

def talkEnvW : TalkEnv := ⟨[⟨"General", "tok1"⟩], fun _ _ => []⟩

/-- Claim C7 witness: sending to an unknown conversation name raises the
lookup error. -/
theorem C7_witness :
    "Missing" ∉ talkEnvW.conversations.map Conversation.display_name ∧
    send_message_to_conversation talkEnvW "Missing" "hello" =
      .error (.keyError "Missing") :=
  ⟨by decide, C7_name_lookup.2.1 talkEnvW "Missing" "hello" (by decide)⟩

/-- Claim C8: when exactly one of `start_time` and `end_time` is truthy (the
other omitted or empty), the provided time is silently ignored — the event, if
one is built, has midnight start/end datetimes taken from the dates alone, and
no time-format error can arise; the combined timed datetimes are used only when
both times are provided and non-empty. -/
theorem C8_single_time_ignored (env : ScheduleEnv) (cn t d sd ed : String)
    (st et loc tz : Option String)
    (hx : truthyOpt st = true ∧ truthyOpt et = false ∨
          truthyOpt st = false ∧ truthyOpt et = true) :
    (∀ cal ev, schedule_event env cn t d sd ed st et loc tz = .ok (cal, ev) →
      ∃ a b, parseDate sd = some a ∧ parseDate ed = some b ∧
        ev.startDT = midnight a ∧ ev.endDT = midnight b) ∧
    schedule_event env cn t d sd ed st et loc tz ≠ .error .timeFormatError := by
  have htimed : (truthyOpt st && truthyOpt et) = false := by
    rcases hx with ⟨h1, h2⟩ | ⟨h1, h2⟩ <;> simp [h1, h2]
  constructor
  · intro cal ev h
    unfold schedule_event at h
    cases hsd : parseDate sd with
    | none => rw [hsd] at h; cases h
    | some a =>
    rw [hsd] at h
    cases hed : parseDate ed with
    | none => rw [hed] at h; cases h
    | some b =>
    rw [hed] at h
    rw [htimed] at h
    simp only [Bool.false_eq_true, if_false, Except.bind] at h
    cases htz : pytzTimezone env.timezones tz with
    | error e => simp [htz] at h
    | ok z =>
    simp only [htz] at h
    cases hlk : lastWithKey CalendarObj.name env.calendars cn with
    | none => simp [hlk] at h
    | some c =>
      simp only [hlk] at h
      injection h with h2
      have hev : ev = ⟨t, d, loc, z, midnight a, midnight b⟩ :=
        (congrArg Prod.snd h2).symm
      exact ⟨a, b, rfl, rfl, by rw [hev], by rw [hev]⟩
  · intro h
    unfold schedule_event at h
    cases hsd : parseDate sd with
    | none => rw [hsd] at h; simp at h
    | some a =>
    rw [hsd] at h
    cases hed : parseDate ed with
    | none => rw [hed] at h; simp at h
    | some b =>
    rw [hed] at h
    rw [htimed] at h
    simp only [Bool.false_eq_true, if_false, Except.bind] at h
    cases htz : pytzTimezone env.timezones tz with
    | error e =>
      simp only [htz] at h
      injection h with h2
      subst h2
      exact pytzTimezone_no_time_error env.timezones tz htz
    | ok z =>
    simp only [htz] at h
    cases hlk : lastWithKey CalendarObj.name env.calendars cn with
    | none => simp [hlk] at h
    | some c => simp [hlk] at h

def envW : ScheduleEnv := ⟨[⟨"Personal"⟩], ["UTC", "America/New_York"]⟩

/-- Claim C8 witness: a call giving only a start time is not rejected as a
time-format error — the time is ignored. -/
theorem C8_witness :
    truthyOpt (some "3:00 PM") = true ∧ truthyOpt none = false ∧
    schedule_event envW "Personal" "T" "D" "2024-12-01" "2024-12-02"
      (some "3:00 PM") none none (some "UTC") ≠ .error .timeFormatError :=
  ⟨by decide, rfl,
    (C8_single_time_ignored envW "Personal" "T" "D" "2024-12-01" "2024-12-02"
      (some "3:00 PM") none none (some "UTC")
      (Or.inl ⟨by decide, rfl⟩)).2⟩

/-- Claim C9: `schedule_event` always runs its timezone localization, so a
call that omits the optional `timezone` parameter fails with the timezone
error — and hence creates no event — even when the dates, the times and the
calendar name are all valid. -/
theorem C9_missing_timezone_fails (env : ScheduleEnv) (cn t d sd ed : String)
    (st et loc : Option String) (a b : Date)
    (hsd : parseDate sd = some a) (hed : parseDate ed = some b)
    (htimes : (truthyOpt st && truthyOpt et) = true →
      (parseTime12 (st.getD "")).isSome ∧ (parseTime12 (et.getD "")).isSome)
    (_hcal : cn ∈ env.calendars.map CalendarObj.name) :
    schedule_event env cn t d sd ed st et loc none = .error .timezoneError := by
  unfold schedule_event
  rw [hsd, hed]
  cases htimed : truthyOpt st && truthyOpt et with
  | false => simp [Except.bind, pytzTimezone]
  | true =>
    obtain ⟨h1, h2⟩ := htimes htimed
    cases hst : parseTime12 (st.getD "") with
    | none => rw [hst] at h1; cases h1
    | some stv =>
    cases het : parseTime12 (et.getD "") with
    | none => rw [het] at h2; cases h2
    | some etv =>
    simp [hst, het, Except.bind, pytzTimezone]

/-- Claim C9 witness: valid dates and calendar, no times, but no timezone —
the call fails with the timezone error. -/
theorem C9_witness :
    parseDate "2024-12-01" = some ⟨2024, 12, 1⟩ ∧
    "Personal" ∈ envW.calendars.map CalendarObj.name ∧
    schedule_event envW "Personal" "T" "D" "2024-12-01" "2024-12-01"
      none none none none = .error .timezoneError :=
  ⟨by decide, by decide,
    C9_missing_timezone_fails envW "Personal" "T" "D" "2024-12-01" "2024-12-01"
      none none none ⟨2024, 12, 1⟩ ⟨2024, 12, 1⟩ (by decide) (by decide)
      (fun h => by simp [truthyOpt] at h) (by decide)⟩

/-- Claim C10: the weather tool raises its descriptive error only when the
guard of tools.py line 154 holds — the response lacks `properties`, its
`properties` value lacks `timeseries`, or the `timeseries` value is falsy (in
particular an empty list); when the guard passes but the first timeseries
entry lacks `data`, `instant` or `details`, the tool instead fails with the
corresponding unguarded `KeyError`; and a value is only ever returned from a
complete `[0]['data']['instant']['details']` chain. -/
theorem C10_weather_errors (json : JsonVal) :
    (get_current_weather_for_coordinates json = .error .descriptive →
      pyIn "properties" json = .ok false ∨
      (∃ props, pyIndexStr json "properties" = .ok props ∧
        pyIn "timeseries" props = .ok false) ∨
      (∃ props ts, pyIndexStr json "properties" = .ok props ∧
        pyIndexStr props "timeseries" = .ok ts ∧ pyTruthy ts = false)) ∧
    (∀ props ts entry,
      pyIn "properties" json = .ok true →
      pyIndexStr json "properties" = .ok props →
      pyIn "timeseries" props = .ok true →
      pyIndexStr props "timeseries" = .ok ts →
      pyTruthy ts = true →
      pyIndexNat ts 0 = .ok entry →
      (∀ efs, entry = .obj efs → efs.lookup "data" = none →
        get_current_weather_for_coordinates json =
          .error (.py (.keyError "data"))) ∧
      (∀ efs dfs, entry = .obj efs → efs.lookup "data" = some (.obj dfs) →
        dfs.lookup "instant" = none →
        get_current_weather_for_coordinates json =
          .error (.py (.keyError "instant"))) ∧
      (∀ efs dfs ifs, entry = .obj efs → efs.lookup "data" = some (.obj dfs) →
        dfs.lookup "instant" = some (.obj ifs) → ifs.lookup "details" = none →
        get_current_weather_for_coordinates json =
          .error (.py (.keyError "details")))) ∧
    (∀ v, get_current_weather_for_coordinates json = .ok v →
      ∃ props ts entry data inst,
        pyIndexStr json "properties" = .ok props ∧
        pyIndexStr props "timeseries" = .ok ts ∧
        pyIndexNat ts 0 = .ok entry ∧
        pyIndexStr entry "data" = .ok data ∧
        pyIndexStr data "instant" = .ok inst ∧
        pyIndexStr inst "details" = .ok v) := by
  refine ⟨?_, ?_, ?_⟩
  · intro h
    unfold get_current_weather_for_coordinates at h
    cases h1 : pyIn "properties" json with
    | error e => simp [h1] at h
    | ok b1 =>
    cases b1 with
    | false => exact Or.inl rfl
    | true =>
    simp only [h1] at h
    cases h2 : pyIndexStr json "properties" with
    | error e => simp [h2] at h
    | ok props =>
    simp only [h2] at h
    cases h3 : pyIn "timeseries" props with
    | error e => simp [h3] at h
    | ok b3 =>
    cases b3 with
    | false => exact Or.inr (Or.inl ⟨props, rfl, h3⟩)
    | true =>
    simp only [h3] at h
    cases h4 : pyIndexStr props "timeseries" with
    | error e => simp [h4] at h
    | ok ts =>
    simp only [h4] at h
    cases h5 : pyTruthy ts with
    | false => exact Or.inr (Or.inr ⟨props, ts, rfl, h4, h5⟩)
    | true =>
    simp only [h5, Bool.true_eq_false, if_false] at h
    cases h6 : pyIndexNat ts 0 with
    | error e => simp [h6] at h
    | ok entry =>
    simp only [h6] at h
    cases h7 : pyIndexStr entry "data" with
    | error e => simp [h7] at h
    | ok data =>
    simp only [h7] at h
    cases h8 : pyIndexStr data "instant" with
    | error e => simp [h8] at h
    | ok inst =>
    simp only [h8] at h
    cases h9 : pyIndexStr inst "details" with
    | error e => simp [h9] at h
    | ok details => simp [h9] at h
  · intro props ts entry h1 h2 h3 h4 h5 h6
    refine ⟨?_, ?_, ?_⟩
    · intro efs hentry hdata
      subst hentry
      unfold get_current_weather_for_coordinates
      simp only [h1, h2, h3, h4, h5, h6, Bool.true_eq_false, if_false]
      simp [pyIndexStr, hdata]
    · intro efs dfs hentry hdata hinst
      subst hentry
      unfold get_current_weather_for_coordinates
      simp only [h1, h2, h3, h4, h5, h6, Bool.true_eq_false, if_false]
      simp [pyIndexStr, hdata, hinst]
    · intro efs dfs ifs hentry hdata hinst hdet
      subst hentry
      unfold get_current_weather_for_coordinates
      simp only [h1, h2, h3, h4, h5, h6, Bool.true_eq_false, if_false]
      simp [pyIndexStr, hdata, hinst, hdet]
  · intro v h
    unfold get_current_weather_for_coordinates at h
    cases h1 : pyIn "properties" json with
    | error e => simp [h1] at h
    | ok b1 =>
    cases b1 with
    | false => simp [h1] at h
    | true =>
    simp only [h1] at h
    cases h2 : pyIndexStr json "properties" with
    | error e => simp [h2] at h
    | ok props =>
    simp only [h2] at h
    cases h3 : pyIn "timeseries" props with
    | error e => simp [h3] at h
    | ok b3 =>
    cases b3 with
    | false => simp [h3] at h
    | true =>
    simp only [h3] at h
    cases h4 : pyIndexStr props "timeseries" with
    | error e => simp [h4] at h
    | ok ts =>
    simp only [h4] at h
    cases h5 : pyTruthy ts with
    | false => simp [h5] at h
    | true =>
    simp only [h5, Bool.true_eq_false, if_false] at h
    cases h6 : pyIndexNat ts 0 with
    | error e => simp [h6] at h
    | ok entry =>
    simp only [h6] at h
    cases h7 : pyIndexStr entry "data" with
    | error e => simp [h7] at h
    | ok data =>
    simp only [h7] at h
    cases h8 : pyIndexStr data "instant" with
    | error e => simp [h8] at h
    | ok inst =>
    simp only [h8] at h
    cases h9 : pyIndexStr inst "details" with
    | error e => simp [h9] at h
    | ok details =>
      simp only [h9] at h
      injection h with h10
      subst h10
      exact ⟨props, ts, entry, data, inst, rfl, h4, h6, h7, h8, h9⟩

def wjson : JsonVal :=
  .obj [("properties", .obj [("timeseries",
    .arr [.obj [("time", .str "2024-01-01T00:00:00Z")]])])]

/-- Claim C10 witness: a response whose first timeseries entry lacks `data`
fails with the unguarded `KeyError` on `data`, not the descriptive error. -/
theorem C10_witness :
    pyIn "properties" wjson = .ok true ∧
    get_current_weather_for_coordinates wjson = .error (.py (.keyError "data")) :=
  ⟨rfl,
    ((C10_weather_errors wjson).2.1
      (.obj [("timeseries", .arr [.obj [("time", .str "2024-01-01T00:00:00Z")]])])
      (.arr [.obj [("time", .str "2024-01-01T00:00:00Z")]])
      (.obj [("time", .str "2024-01-01T00:00:00Z")])
      rfl rfl rfl rfl rfl rfl).1
      [("time", .str "2024-01-01T00:00:00Z")] rfl rfl⟩

end ContextAgent
